import Mathlib

/-!
Shallow embedding of the reconnecting AMQP client runtime
(`cloudify/amqp_client.py`): the connection actor's outbound-drain loop,
reconnect backoff, host rotation, channel-method dispatch, the task
consumer's delivery handling, and the blocking/callback RPC handlers.

Modelling conventions:
* the outbound `Queue.Queue` of envelopes is a `List` whose head is the
  front of the queue (`get_nowait` pops the head, `put` appends at the tail);
* exceptions raised by pika channel methods are an abstract outcome type;
* the single-use reply slot (`err_queue`) handed to a waiting caller is
  summarised by what, if anything, the actor delivers to it within the
  caller's timeout (`none` = nothing arrived in time);
* JSON parsing is an abstract function `String → Option Nat`, `none`
  standing for a `ValueError` from `json.loads`;
* correlation tables (Python dicts keyed by fresh uuid hex strings) are
  lists of keys, the slot/callback payloads being irrelevant to the
  properties proved here.
-/

namespace AmqpClient

/-- Abstract exception carried through a reply slot. -/
inductive Err where
  | connectionClosed
  | channelClosed
  | other (code : Nat)
deriving DecidableEq, Repr

/-- An outbound work item handed to the connection actor, mirroring the
dict built in `AMQPConnection.channel_method`: the channel-method name,
its keyword arguments (values abstracted to `Nat`), whether a reply slot
(`err_queue`) was attached, and an optional explicit channel. -/
structure Envelope where
  method : String
  message : List (String × Nat)
  hasErrQueue : Bool
  channel : Option Nat
deriving DecidableEq, Repr

/-- Outcome of invoking `getattr(target_channel, method)(**message)` on
one envelope. -/
inductive SendOutcome where
  | ok
  | connectionClosed
  | err (e : Err)
deriving DecidableEq, Repr

/-- How one call to `AMQPConnection._process_publish` terminates. -/
inductive DrainExit where
  | queueEmpty
  | returnedClosed
  | raisedConnClosed
  | raisedErr (e : Err)
deriving DecidableEq, Repr

namespace AMQPConnection

/-- Embedding of `AMQPConnection._process_publish`: pop envelopes from the
front of the outbound queue until it is empty; invoke each; on
`ConnectionClosed` return silently when the connection is closed, else
`put` the envelope back (appending it at the TAIL of the `Queue.Queue`)
and re-raise; on any other exception deliver it to the reply slot and
re-raise. Returns the envelopes successfully sent (in order), the final
queue contents, and the exit reason. -/
def process_publish (send : Envelope → SendOutcome) (closed : Bool) :
    List Envelope → List Envelope × List Envelope × DrainExit
  | [] => ([], [], DrainExit.queueEmpty)
  | e :: rest =>
    match send e with
    | SendOutcome.ok =>
        let r := process_publish send closed rest
        (e :: r.1, r.2.1, r.2.2)
    | SendOutcome.connectionClosed =>
        if closed then ([], rest, DrainExit.returnedClosed)
        else ([], rest ++ [e], DrainExit.raisedConnClosed)
    | SendOutcome.err ex => ([], rest, DrainExit.raisedErr ex)

/-- `AMQPConnection.MAX_BACKOFF`. -/
def MAX_BACKOFF : Nat := 30

/-- The per-connection state the reconnect logic touches:
`_reconnect_backoff` and `_closed`. -/
structure ConnState where
  reconnectBackoff : Nat
  closed : Bool
deriving DecidableEq, Repr

/-- `AMQPConnection._get_reconnect_backoff`: return the stored backoff and
store `min(backoff * 2, MAX_BACKOFF)`. -/
def get_reconnect_backoff (st : ConnState) : Nat × ConnState :=
  (st.reconnectBackoff,
   { st with reconnectBackoff := min (st.reconnectBackoff * 2) MAX_BACKOFF })

/-- `AMQPConnection._reset_reconnect_backoff`. -/
def reset_reconnect_backoff (st : ConnState) : ConnState :=
  { st with reconnectBackoff := 1 }

/-- Result of one `_get_pika_connection` attempt. -/
inductive ConnectOutcome where
  | connected
  | retry
  | raised
deriving DecidableEq, Repr

/-- Embedding of `AMQPConnection._get_pika_connection`. `connectOk` is
whether `pika.BlockingConnection(params)` succeeds; `pastDeadline` is
whether, after sleeping, `deadline and time.time() > deadline` holds.
Returns the sleep taken (if any), the new state, and the outcome: on
failure sleep the current backoff (doubling the stored one) and either
re-raise (deadline elapsed) or let the caller retry; on success reset the
backoff to 1, set `_closed = False` and return the connection. -/
def get_pika_connection (connectOk : Bool) (pastDeadline : Bool)
    (st : ConnState) : Option Nat × ConnState × ConnectOutcome :=
  if connectOk then
    (none, { reset_reconnect_backoff st with closed := false },
     ConnectOutcome.connected)
  else
    let r := get_reconnect_backoff st
    (some r.1, r.2,
     if pastDeadline then ConnectOutcome.raised else ConnectOutcome.retry)

/-- The sleeps taken during `n` consecutive failed connect attempts
starting from state `st` (each attempt is `_get_pika_connection` with the
connection refused and the deadline not yet elapsed). -/
def failRunSleeps (st : ConnState) : Nat → List Nat
  | 0 => []
  | n + 1 =>
    let r := get_pika_connection false false st
    r.1.toList ++ failRunSleeps r.2.1 n

/-- The flag mutation of `AMQPConnection.close`: set `_closed = True`
(thread joining abstracted away). -/
def close (st : ConnState) : ConnState := { st with closed := true }

/-- The host list built at the start of `_get_connection_params`: a string
host is wrapped in a one-element list, a list of hosts is shuffled in
place (the shuffle, a permutation chosen by `random.shuffle`, is a
parameter). -/
def hostList (rawHost : String ⊕ List String)
    (shuffled : List String → List String) : List String :=
  match rawHost with
  | Sum.inl s => [s]
  | Sum.inr hs => shuffled hs

/-- The `n`-th parameter set yielded by the generator loop of
`_get_connection_params` (`while True: for host in hosts: yield`),
projected to its host: the generator cycles through `hosts` forever, so
yield `n` carries `hosts[n % len(hosts)]`. -/
def hostIter (hosts : List String) (n : Nat) : Option String :=
  hosts[n % hosts.length]?

/-- Result observed by a caller of `AMQPConnection.channel_method`. -/
inductive ChannelMethodResult where
  | misuseError
  | timeoutError
  | raisedErr (e : Err)
  | ok
deriving DecidableEq, Repr

/-- Embedding of `AMQPConnection.channel_method`. `hasConsumerThread` and
`currentIsConsumerThread` embed `self._consumer_thread` being non-None
and it being `threading.current_thread()`; `reply` is what the actor
delivers to the freshly created `err_queue` within the caller's timeout
(`none` = nothing, so `err_queue.get(timeout=timeout)` raises; `some none`
= the success marker `None`; `some (some e)` = an exception instance,
re-raised in the caller). Returns the caller-visible result and the
outbound queue after the call. -/
def channel_method (method : String) (channel : Option Nat) (wait : Bool)
    (kwargs : List (String × Nat))
    (hasConsumerThread currentIsConsumerThread : Bool)
    (reply : Option (Option Err)) (q : List Envelope) :
    ChannelMethodResult × List Envelope :=
  if wait && hasConsumerThread && currentIsConsumerThread then
    (ChannelMethodResult.misuseError, q)
  else
    let env : Envelope :=
      { method := method, message := kwargs, hasErrQueue := wait,
        channel := channel }
    let q2 := q ++ [env]
    if wait then
      match reply with
      | none => (ChannelMethodResult.timeoutError, q2)
      | some none => (ChannelMethodResult.ok, q2)
      | some (some e) => (ChannelMethodResult.raisedErr e, q2)
    else (ChannelMethodResult.ok, q2)

/-- `AMQPConnection.publish`: sugar for `channel_method('publish', ...)`
with the message dict as keyword arguments. -/
def publish (message : List (String × Nat)) (wait : Bool)
    (hasConsumerThread currentIsConsumerThread : Bool)
    (reply : Option (Option Err)) (q : List Envelope) :
    ChannelMethodResult × List Envelope :=
  channel_method "publish" none wait message
    hasConsumerThread currentIsConsumerThread reply q

/-- `AMQPConnection.ack`: sugar for `channel_method('basic_ack', ...)`. -/
def ack (channel : Nat) (deliveryTag : Nat) (wait : Bool)
    (hasConsumerThread currentIsConsumerThread : Bool)
    (reply : Option (Option Err)) (q : List Envelope) :
    ChannelMethodResult × List Envelope :=
  channel_method "basic_ack" (some channel) wait [("delivery_tag", deliveryTag)]
    hasConsumerThread currentIsConsumerThread reply q

/-- The client state `consume_in_thread` reads and writes:
`_consumer_thread` (a thread identifier when spawned), and `_error`
(set by a failed `connect`). -/
structure ClientState where
  consumerThread : Option Nat
  error : Option Err
deriving DecidableEq, Repr

/-- Result observed by a caller of `consume_in_thread`. -/
inductive ConsumeInThreadResult where
  | returnedNone
  | returnedThread (t : Nat)
  | raisedError (e : Err)
deriving DecidableEq, Repr

/-- Embedding of `AMQPConnection.consume_in_thread`: if a consumer thread
already exists, return `None` at once; otherwise spawn a thread (with
fresh identifier `newThreadId`), wait for the `connect_wait` event, then
re-raise `self._error` if set, else return the thread. The `Bool` in the
result records whether the call waited on `connect_wait`. -/
def consume_in_thread (newThreadId : Nat) (st : ClientState) :
    ConsumeInThreadResult × ClientState × Bool :=
  match st.consumerThread with
  | some _ => (ConsumeInThreadResult.returnedNone, st, false)
  | none =>
    let st2 := { st with consumerThread := some newThreadId }
    match st2.error with
    | some e => (ConsumeInThreadResult.raisedError e, st2, true)
    | none => (ConsumeInThreadResult.returnedThread newThreadId, st2, true)

end AMQPConnection

/-- The mutable state of a `TaskConsumer` that `process` touches, plus
observation counters: the pool size, the semaphore's in-use count
(`threadpool_size` minus available permits), the FIFO `_tasks_buffer`,
the tasks handed to spawned worker threads, and the number of ack
envelopes issued (acks are only ever issued inside `_process_message`,
never in `process` itself). -/
structure ConsumerState where
  threadpoolSize : Nat
  semInUse : Nat
  tasksBuffer : List Nat
  workersSpawned : List Nat
  acksIssued : Nat
deriving DecidableEq, Repr

namespace TaskConsumer

/-- Embedding of `TaskConsumer.process`: parse the body as JSON
(`parseJson body = none` standing for `json.loads` raising `ValueError`);
on parse failure log an error and return at once. Otherwise try a
non-blocking semaphore acquire: on success spawn a worker for the task,
else append the task to `_tasks_buffer`. The returned `Bool` records
whether a parse error was logged. -/
def process (parseJson : String → Option Nat) (body : String)
    (st : ConsumerState) : ConsumerState × Bool :=
  match parseJson body with
  | none => (st, true)
  | some fullTask =>
    if st.semInUse < st.threadpoolSize then
      ({ st with semInUse := st.semInUse + 1,
                 workersSpawned := st.workersSpawned ++ [fullTask] }, false)
    else
      ({ st with tasksBuffer := st.tasksBuffer ++ [fullTask] }, false)

end TaskConsumer

/-- Python-dict key insertion on a duplicate-free key list
(`d[k] = ...`). -/
def tblInsert (k : String) (t : List String) : List String :=
  if k ∈ t then t else k :: t

/-- Python-dict key deletion (`del d[k]`). -/
def tblRemove (k : String) (t : List String) : List String := t.erase k

namespace BlockingRequestResponseHandler

/-- Caller-visible result of a blocking RPC publish. -/
inductive RPCResult where
  | ok (r : Nat)
  | noResponseError
deriving DecidableEq, Repr

/-- Embedding of `BlockingRequestResponseHandler.publish`: register a
fresh reply slot under `corrId` in `_response_queues`, publish, then
block on the slot up to the timeout. `reply` is the parsed response
delivered to the slot within the timeout (`none` = `Queue.Empty`, turned
into the no-response `RuntimeError`). The `finally` clause deletes the
entry on every exit path. Returns the result and the table afterwards. -/
def publish (corrId : String) (reply : Option Nat) (t : List String) :
    RPCResult × List String :=
  let t1 := tblInsert corrId t
  match reply with
  | some r => (RPCResult.ok r, tblRemove corrId t1)
  | none => (RPCResult.noResponseError, tblRemove corrId t1)

/-- Embedding of `BlockingRequestResponseHandler.process`: ack the
delivery, parse the body (`none` = parse failure, logged and dropped),
and when the correlation-ID is registered put the response on its slot.
Returns (acked, delivered-to-slot, table afterwards): `process` never
removes entries, removal happens in `publish`'s `finally`. -/
def process (body : Option Nat) (corrId : String) (t : List String) :
    Bool × Bool × List String :=
  match body with
  | none => (true, false, t)
  | some _ => (true, t.contains corrId, t)

end BlockingRequestResponseHandler

namespace CallbackRequestResponseHandler

/-- Embedding of `CallbackRequestResponseHandler.publish`: when a
callback is supplied, register it under the correlation-ID in
`_callbacks`; then publish. Returns the callback table afterwards. -/
def publish (corrId : String) (hasCallback : Bool) (cbs : List String) :
    List String :=
  if hasCallback then tblInsert corrId cbs else cbs

/-- Embedding of `CallbackRequestResponseHandler.process`: ack the
delivery, parse the body (`none` = parse failure, logged and dropped),
and when the correlation-ID is registered invoke its callback with the
response. Returns (acked, callback-invoked, table afterwards): the entry
is never deleted. -/
def process (body : Option Nat) (corrId : String) (cbs : List String) :
    Bool × Bool × List String :=
  match body with
  | none => (true, false, cbs)
  | some _ => (true, cbs.contains corrId, cbs)

end CallbackRequestResponseHandler

/-- Concrete envelope used in counterexamples and witnesses. -/
def env1 : Envelope :=
  { method := "publish", message := [("body", 1)], hasErrQueue := false,
    channel := none }

/-- Concrete envelope used in counterexamples and witnesses. -/
def env2 : Envelope :=
  { method := "publish", message := [("body", 2)], hasErrQueue := false,
    channel := none }

/-- A channel-method invocation that raises `ConnectionClosed` exactly on
the designated envelope and succeeds on all others. -/
def sendFailOn (bad : Envelope) (e : Envelope) : SendOutcome :=
  if e = bad then SendOutcome.connectionClosed else SendOutcome.ok

/-- Concrete consumer state used in witnesses. -/
def stC6 : ConsumerState :=
  { threadpoolSize := 5, semInUse := 2, tasksBuffer := [], workersSpawned := [],
    acksIssued := 0 }

/-! ## Claim theorems -/

/-- C1 (counterexample): with the connection open, the drain of queue
`[env1, env2]` in which sending `env1` raises `ConnectionClosed` leaves
the queue as `[env2, env1]` — the failed envelope is re-enqueued at the
TAIL, not head-of-line — and a subsequent successful drain after
reconnect delivers `env2` before `env1`, not in original submission
order. -/
theorem requeue_not_head_cex :
    (AMQPConnection.process_publish (sendFailOn env1) false [env1, env2]).2.1
      = [env2, env1] ∧
    (AMQPConnection.process_publish (sendFailOn env1) false [env1, env2]).2.1
      ≠ [env1, env2] ∧
    (AMQPConnection.process_publish (fun _ => SendOutcome.ok) false
        [env2, env1]).1 = [env2, env1] := by
  decide

/-- C1 (amended): if, while draining the outbound queue, invoking an
envelope's channel method raises `ConnectionClosed` and the connection is
not closed, the envelope is re-enqueued at the TAIL of the queue and the
exception propagates so that the loop reconnects; after reconnect the
later envelopes are delivered before the failed one. -/
theorem requeue_tail (send : Envelope → SendOutcome) (e : Envelope)
    (rest : List Envelope) (h : send e = SendOutcome.connectionClosed) :
    AMQPConnection.process_publish send false (e :: rest)
      = ([], rest ++ [e], DrainExit.raisedConnClosed) := by
  simp [AMQPConnection.process_publish, h]

/-- Witness for `requeue_tail` at the concrete queue `[env1, env2]`. -/
theorem requeue_tail_witness :
    sendFailOn env1 env1 = SendOutcome.connectionClosed ∧
    AMQPConnection.process_publish (sendFailOn env1) false [env1, env2]
      = ([], [env2, env1], DrainExit.raisedConnClosed) :=
  ⟨by decide, requeue_tail (sendFailOn env1) env1 [env2] (by decide)⟩

/-- Helper: one failed connect attempt sleeps the stored backoff and
doubles it (capped at 30). -/
theorem failRunSleeps_succ (b : Nat) (c : Bool) (n : Nat) :
    AMQPConnection.failRunSleeps ⟨b, c⟩ (n + 1)
      = b :: AMQPConnection.failRunSleeps ⟨min (b * 2) 30, c⟩ n := by
  simp [AMQPConnection.failRunSleeps, AMQPConnection.get_pika_connection,
        AMQPConnection.get_reconnect_backoff, AMQPConnection.MAX_BACKOFF]

/-- Helper: the backoff sequence starting at `min (2 ^ j) 30` is the
capped doubling sequence. -/
theorem backoff_seq_aux (c : Bool) (n : Nat) : ∀ j : Nat,
    AMQPConnection.failRunSleeps ⟨min (2 ^ j) 30, c⟩ n
      = (List.range n).map (fun k => min (2 ^ (j + k)) 30) := by
  induction n with
  | zero => intro j; simp [AMQPConnection.failRunSleeps]
  | succ n ih =>
    intro j
    have hstep : min (min (2 ^ j) 30 * 2) 30 = min (2 ^ (j + 1)) 30 := by
      rcases le_or_lt (2 ^ j) 30 with h | h
      · rw [min_eq_left h, pow_succ]
      · have h1 : min (2 ^ j) 30 = 30 := min_eq_right h.le
        have h2 : min (2 ^ (j + 1)) 30 = 30 := by
          rw [pow_succ]
          exact min_eq_right (by omega)
        rw [h1, h2]
        norm_num
    rw [failRunSleeps_succ, hstep, ih (j + 1)]
    rw [List.range_succ_eq_map, List.map_cons, List.map_map]
    refine congrArg₂ _ rfl ?_
    apply List.map_congr_left
    intro i _
    simp only [Function.comp]
    refine congrArg₂ _ (congrArg _ ?_) rfl
    omega

/-- C2: for a run of `n` consecutive failed connect attempts starting
from a fresh (or just-reset) backoff of 1, the sleeps taken are
1, 2, 4, 8, 16, 30, 30, … (the `k`-th sleep is `min (2 ^ k) 30`), and any
single successful connect resets the stored backoff to 1 so the next
failure run starts again at 1 second. -/
theorem backoff_law (n : Nat) (c : Bool) :
    AMQPConnection.failRunSleeps ⟨1, c⟩ n
      = (List.range n).map (fun k => min (2 ^ k) 30) ∧
    (∀ (st : AMQPConnection.ConnState) (d : Bool),
      ((AMQPConnection.get_pika_connection true d st).2.1).reconnectBackoff
        = 1) := by
  constructor
  · have h := backoff_seq_aux c n 0
    simpa using h
  · intro st d
    simp [AMQPConnection.get_pika_connection,
          AMQPConnection.reset_reconnect_backoff]

/-- C3: a synchronous `channel_method` call (and its `publish`/`ack`
sugar) with `wait = true` that is not a misuse (not issued from the
consumer thread), for which neither a success marker nor an error is
delivered to the reply slot within the timeout, raises the timeout error
in the caller. -/
theorem channel_method_timeout (method : String) (channel : Option Nat)
    (kwargs : List (String × Nat)) (hasT isCons : Bool)
    (q : List Envelope) (h : ¬(hasT = true ∧ isCons = true)) :
    (AMQPConnection.channel_method method channel true kwargs hasT isCons
        none q).1 = AMQPConnection.ChannelMethodResult.timeoutError ∧
    (AMQPConnection.publish kwargs true hasT isCons none q).1
      = AMQPConnection.ChannelMethodResult.timeoutError ∧
    (∀ ch tag : Nat, (AMQPConnection.ack ch tag true hasT isCons none q).1
      = AMQPConnection.ChannelMethodResult.timeoutError) := by
  cases hasT <;> cases isCons <;>
    simp_all [AMQPConnection.channel_method, AMQPConnection.publish,
      AMQPConnection.ack]

/-- Witness for `channel_method_timeout` with no consumer thread and an
empty queue. -/
theorem channel_method_timeout_witness :
    ¬((false : Bool) = true ∧ (false : Bool) = true) ∧
    (AMQPConnection.channel_method "publish" none true [] false false
        none []).1 = AMQPConnection.ChannelMethodResult.timeoutError :=
  ⟨by decide,
   (channel_method_timeout "publish" none [] false false [] (by decide)).1⟩

/-- Helper: with a fresh correlation-ID, the blocking publish leaves the
correlation table exactly as it found it. -/
theorem blocking_publish_table_eq (corrId : String) (reply : Option Nat)
    (t : List String) (h : corrId ∉ t) :
    (BlockingRequestResponseHandler.publish corrId reply t).2 = t := by
  have hrem : tblRemove corrId (tblInsert corrId t) = t := by
    simp [tblInsert, tblRemove, h]
  cases reply <;> simp [BlockingRequestResponseHandler.publish, hrem]

/-- C4 (counterexample): in the callback RPC handler, after `publish`
registers a callback under `"c1"` and a response for `"c1"` is processed,
the callback is invoked yet the entry for `"c1"` still remains in the
callback table — `process` never removes entries. -/
theorem callback_entry_persists_cex :
    (CallbackRequestResponseHandler.process (some 7) "c1"
        (CallbackRequestResponseHandler.publish "c1" true [])).2.1 = true ∧
    "c1" ∈ (CallbackRequestResponseHandler.process (some 7) "c1"
        (CallbackRequestResponseHandler.publish "c1" true [])).2.2 := by
  decide

/-- C4 (amended): in the blocking RPC handler a correlation-table entry
created by `publish` under a fresh correlation-ID is removed on response
receipt and on timeout, so after the blocking publish returns or times
out no entry for that correlation-ID remains; in the callback RPC handler
the entry created by `publish` is retained after the callback is invoked
with its response — `process` leaves the callback table unchanged. -/
theorem correlation_table_lifecycle (corrId : String) (reply : Option Nat)
    (t : List String) (h : corrId ∉ t)
    (body : Option Nat) (cbCorrId : String) (cbs : List String) :
    corrId ∉ (BlockingRequestResponseHandler.publish corrId reply t).2 ∧
    (CallbackRequestResponseHandler.process body cbCorrId cbs).2.2 = cbs := by
  refine ⟨?_, ?_⟩
  · rw [blocking_publish_table_eq corrId reply t h]
    exact h
  · cases body <;> rfl

/-- Witness for `correlation_table_lifecycle` at concrete tables. -/
theorem correlation_table_lifecycle_witness :
    ("c9" : String) ∉ ([] : List String) ∧
    ("c9" ∉ (BlockingRequestResponseHandler.publish "c9" (some 3) []).2 ∧
     (CallbackRequestResponseHandler.process (some 3) "c9" ["c9"]).2.2
       = ["c9"]) :=
  ⟨by decide,
   correlation_table_lifecycle "c9" (some 3) [] (by decide) (some 3) "c9"
     ["c9"]⟩

/-- C5: a blocking RPC publish under a fresh correlation-ID fails with
the no-response error when no reply carrying that correlation-ID arrives
within the timeout, returns the parsed response when one does, and on
both exit paths leaves the correlation table without the entry (indeed
exactly as it was before the call). -/
theorem blocking_publish_spec (corrId : String) (reply : Option Nat)
    (t : List String) (h : corrId ∉ t) :
    (BlockingRequestResponseHandler.publish corrId reply t).2 = t ∧
    corrId ∉ (BlockingRequestResponseHandler.publish corrId reply t).2 ∧
    (reply = none →
      (BlockingRequestResponseHandler.publish corrId reply t).1
        = BlockingRequestResponseHandler.RPCResult.noResponseError) ∧
    (∀ r : Nat, reply = some r →
      (BlockingRequestResponseHandler.publish corrId reply t).1
        = BlockingRequestResponseHandler.RPCResult.ok r) := by
  have hq := blocking_publish_table_eq corrId reply t h
  refine ⟨hq, by rw [hq]; exact h, ?_, ?_⟩
  · intro hr
    subst hr
    simp [BlockingRequestResponseHandler.publish]
  · intro r hr
    subst hr
    simp [BlockingRequestResponseHandler.publish]

/-- Witness for `blocking_publish_spec`: a publish that never receives a
reply raises the no-response error and the table is empty afterwards. -/
theorem blocking_publish_spec_witness :
    ("c1" : String) ∉ ([] : List String) ∧
    (BlockingRequestResponseHandler.publish "c1" none []).1
      = BlockingRequestResponseHandler.RPCResult.noResponseError ∧
    (BlockingRequestResponseHandler.publish "c1" none []).2 = [] :=
  ⟨by decide,
   (blocking_publish_spec "c1" none [] (by decide)).2.2.1 rfl,
   (blocking_publish_spec "c1" none [] (by decide)).1⟩

/-- C6: on a task-consumer delivery whose body is not valid JSON,
`process` logs an error and returns with the consumer state unchanged —
no ack is issued, the semaphore's in-use count is unchanged, no worker is
spawned, and nothing is appended to the task buffer. -/
theorem task_consumer_json_drop (parseJson : String → Option Nat)
    (body : String) (st : ConsumerState) (h : parseJson body = none) :
    TaskConsumer.process parseJson body st = (st, true) := by
  simp [TaskConsumer.process, h]

/-- Witness for `task_consumer_json_drop` at a concrete state. -/
theorem task_consumer_json_drop_witness :
    (fun _ : String => (none : Option Nat)) "not json" = none ∧
    TaskConsumer.process (fun _ => none) "not json" stC6 = (stC6, true) :=
  ⟨rfl, task_consumer_json_drop (fun _ => none) "not json" stC6 rfl⟩

/-- Helper: indexing the range of a list's length yields the list. -/
theorem range_map_get (l : List String) :
    (List.range l.length).map (fun i => l[i]?) = l.map some := by
  induction l with
  | nil => simp
  | cons a t ih =>
    rw [List.length_cons, List.range_succ_eq_map, List.map_cons,
        List.map_map, List.map_cons]
    refine congrArg₂ _ (by simp) ?_
    rw [← ih]
    apply List.map_congr_left
    intro i _
    simp

/-- C7: the connection-parameter iterator wraps a string host in a
one-element list and shuffles a host sequence once at construction; over
the resulting non-empty host list it never ends (every yield is defined)
and each full cycle — here cycle `k` — yields every host of the list
exactly once, in the same order, before any host repeats. -/
theorem connection_params_cycle (hosts : List String) (h : hosts ≠ [])
    (k : Nat) :
    (∀ (s : String) (f : List String → List String),
        AMQPConnection.hostList (Sum.inl s) f = [s]) ∧
    (∀ (l : List String) (f : List String → List String),
        AMQPConnection.hostList (Sum.inr l) f = f l) ∧
    (∀ n : Nat, (AMQPConnection.hostIter hosts n).isSome = true) ∧
    (List.range hosts.length).map
        (fun i => AMQPConnection.hostIter hosts (k * hosts.length + i))
      = hosts.map some := by
  have hlen : 0 < hosts.length := List.length_pos.mpr h
  refine ⟨fun s f => rfl, fun l f => rfl, ?_, ?_⟩
  · intro n
    have hm : n % hosts.length < hosts.length := Nat.mod_lt _ hlen
    simp [AMQPConnection.hostIter, List.getElem?_eq_getElem hm]
  · rw [← range_map_get]
    apply List.map_congr_left
    intro i hi
    have hi2 : i < hosts.length := List.mem_range.mp hi
    unfold AMQPConnection.hostIter
    refine congrArg _ ?_
    rw [Nat.add_comm, Nat.add_mul_mod_self_right]
    exact Nat.mod_eq_of_lt hi2

/-- Witness for `connection_params_cycle`: the third full cycle over
`["h1", "h2", "h3"]` yields the three hosts once each, in order. -/
theorem connection_params_cycle_witness :
    (["h1", "h2", "h3"] : List String) ≠ [] ∧
    (List.range 3).map
        (fun i => AMQPConnection.hostIter ["h1", "h2", "h3"] (2 * 3 + i))
      = [some "h1", some "h2", some "h3"] :=
  ⟨by decide,
   (connection_params_cycle ["h1", "h2", "h3"] (by decide) 2).2.2.2⟩

/-- C8: calling `channel_method` with `wait = true` from within the
actor's own consumer thread fails with the misuse error, and the outbound
queue is returned unchanged — the rejection happens before any envelope
is enqueued. -/
theorem channel_method_misuse (method : String) (channel : Option Nat)
    (kwargs : List (String × Nat)) (reply : Option (Option Err))
    (q : List Envelope) :
    AMQPConnection.channel_method method channel true kwargs true true
        reply q = (AMQPConnection.ChannelMethodResult.misuseError, q) := by
  simp [AMQPConnection.channel_method]

/-- C9: every successful connect attempt sets the connection's closed
flag to `False` — in particular after `close()` was called, a successful
`_get_pika_connection` marks the connection open again, so closedness is
not preserved across a successful connect. -/
theorem connect_clears_closed (st : AMQPConnection.ConnState)
    (d1 d2 : Bool) :
    ((AMQPConnection.get_pika_connection true d1 st).2.1).closed = false ∧
    ((AMQPConnection.get_pika_connection true d2
        (AMQPConnection.close st)).2.1).closed = false := by
  constructor <;>
    simp [AMQPConnection.get_pika_connection, AMQPConnection.close,
      AMQPConnection.reset_reconnect_backoff]

/-- C10: when a consumer thread already exists, `consume_in_thread`
returns `None` immediately: no new thread is spawned, the call does not
wait on the connected event, no stored connection error is re-raised, and
the client state is unchanged. -/
theorem consume_in_thread_existing (newId t : Nat)
    (st : AMQPConnection.ClientState) (h : st.consumerThread = some t) :
    AMQPConnection.consume_in_thread newId st
      = (AMQPConnection.ConsumeInThreadResult.returnedNone, st, false) := by
  simp [AMQPConnection.consume_in_thread, h]

/-- Witness for `consume_in_thread_existing` with thread 5 present and a
stored error that is not re-raised. -/
theorem consume_in_thread_existing_witness :
    (AMQPConnection.ClientState.mk (some 5)
        (some Err.connectionClosed)).consumerThread = some 5 ∧
    AMQPConnection.consume_in_thread 9
        (AMQPConnection.ClientState.mk (some 5) (some Err.connectionClosed))
      = (AMQPConnection.ConsumeInThreadResult.returnedNone,
         AMQPConnection.ClientState.mk (some 5) (some Err.connectionClosed),
         false) :=
  ⟨rfl, consume_in_thread_existing 9 5 _ rfl⟩

end AmqpClient
